import Mathlib

/-!
The order-event dispatch pipeline of `order-service`.

A shallow embedding of the Go sources of `order-service`
(`rabbitmq/rabbitmq.go`, `consumers/order_consumer.go`,
`controllers/order_controller.go`, `models/order.go`, `config/config.go`)
and theorems about the event codec, the broker topology, the consumer
and the two mutating controllers.

Conventions
* a Go `string` / `[]byte` is the list of its bytes (`GoString`);
* Go `int` is `Int`; conversions that can wrap (`rune`, `uint8`) wrap explicitly;
* `float64` money amounts are taken exactly, as rationals;
* the database and the broker are explicit values that the functions transform;
  a failing driver call is an input of the model (`DbFaults`, `ConsumerEnv`, `SetupFaults`).
-/

namespace OrderService

/-! ## Go runtime and standard library used by the codec -/

/-- A Go string, as its bytes. -/
abbrev GoString := List Nat

/-- The Go conversion `rune(n)` of an `int`: truncation to a signed 32-bit value. -/
def rune (n : Int) : Int := (n + 2147483648) % 4294967296 - 2147483648

/-- The Go runtime `encoderune`: the UTF-8 bytes of a rune; a negative rune, a
surrogate and a value above U+10FFFF are encoded as U+FFFD. -/
def encoderune (r : Int) : GoString :=
  let i : Nat := (r % 4294967296).toNat
  if i ≤ 0x7F then [i]
  else if i ≤ 0x7FF then [0xC0 ||| (i / 64 % 256), 0x80 ||| (i % 256 &&& 0x3F)]
  else if i > 0x10FFFF ∨ (0xD800 ≤ i ∧ i ≤ 0xDFFF) then [0xEF, 0xBF, 0xBD]
  else if i ≤ 0xFFFF then
    [0xE0 ||| (i / 4096 % 256), 0x80 ||| (i / 64 % 256 &&& 0x3F), 0x80 ||| (i % 256 &&& 0x3F)]
  else
    [0xF0 ||| (i / 262144 % 256), 0x80 ||| (i / 4096 % 256 &&& 0x3F),
     0x80 ||| (i / 64 % 256 &&& 0x3F), 0x80 ||| (i % 256 &&& 0x3F)]

/-- The Go conversion `string(r)` of a rune. -/
def runeToString (r : Int) : GoString := encoderune r

/-- A Go string literal of the source: the UTF-8 bytes of its text. -/
def lit (s : String) : GoString := s.toList.flatMap (fun c => encoderune (c.toNat : Int))

/-- The byte `'|'`. -/
def pipe : Nat := 124

/-- Go `strings.Split(s, sep)` for a one-byte separator: the pieces of `s`
between the occurrences of `sep`; there is always at least one piece. -/
def Split (s : GoString) (sep : Nat) : List GoString :=
  match s with
  | [] => [[]]
  | b :: rest =>
    if b = sep then [] :: Split rest sep
    else
      match Split rest sep with
      | [] => [[b]]
      | p :: ps => (b :: p) :: ps

/-- The decimal value of a run of ASCII digits read after the value `acc`;
`none` when a byte is not a digit. -/
def parseDigits (acc : Nat) : GoString → Option Nat
  | [] => some acc
  | b :: rest => if 48 ≤ b ∧ b ≤ 57 then parseDigits (acc * 10 + (b - 48)) rest else none

/-- Go `strconv.Atoi`: an optional sign, then one or more decimal digits, the
value within the 64-bit `int` range; `none` stands for a non-nil error. -/
def Atoi (s : GoString) : Option Int :=
  match s with
  | [] => none
  | b :: rest =>
    if b = 45 then
      match rest with
      | [] => none
      | _ => (parseDigits 0 rest).bind
               (fun n => if n ≤ 9223372036854775808 then some (-(n : Int)) else none)
    else if b = 43 then
      match rest with
      | [] => none
      | _ => (parseDigits 0 rest).bind
               (fun n => if n ≤ 9223372036854775807 then some (n : Int) else none)
    else (parseDigits 0 s).bind
               (fun n => if n ≤ 9223372036854775807 then some (n : Int) else none)

/-! ## Event codec -/

/-- The message body built by `PublishOrderEvent` and `PublishDelayedEvent`:
`[]byte(string(rune(orderID)) + "|" + eventType)`. -/
def eventBody (orderID : Int) (eventType : GoString) : GoString :=
  runeToString (rune orderID) ++ lit "|" ++ eventType

/-- The decode step at the head of `processOrderMessage`: split the body on
`'|'`, read the first field with `strconv.Atoi`, take the second field as the
event type. `none` is a rejected message. -/
def decodeStep (body : GoString) : Option (Int × GoString) :=
  let parts := Split body pipe
  if parts.length < 2 then none
  else
    match Atoi (parts.getD 0 []) with
    | none => none
    | some orderID => some (orderID, parts.getD 1 [])

/-! ## Data model (`models/order.go`) and the relational store -/

/-- The Go struct `models.OrderItem`. -/
structure OrderItem where
  ProductID : Int
  ProductName : String
  Quantity : Int
  Price : ℚ
  deriving DecidableEq

/-- The Go struct `models.Order`; a `time.Time` is an instant counted in `Nat`. -/
structure Order where
  ID : Int
  UserID : Int
  Total : ℚ
  Status : String
  CreatedAt : Nat
  UpdatedAt : Nat
  Items : List OrderItem
  deriving DecidableEq

/-- A row of the table `orders`, with the columns the queries of the service name. -/
structure OrderRow where
  id : Int
  user_id : Int
  total : ℚ
  status : String
  created_at : Nat
  updated_at : Nat
  deriving DecidableEq

/-- A row of the table `order_items`, with the columns the queries of the service name. -/
structure OrderItemRow where
  order_id : Int
  product_id : Int
  product_name : String
  quantity : Int
  price : ℚ
  deriving DecidableEq

/-- The committed content of the database `database.DB`. -/
structure DB where
  orders : List OrderRow
  order_items : List OrderItemRow
  deriving DecidableEq

/-- The query `SELECT status FROM orders WHERE id = ?` read by `QueryRow(..).Scan`:
the status of the first matching row, `none` when no row matches (`sql.ErrNoRows`). -/
def selectStatus (db : DB) (orderID : Int) : Option String :=
  (db.orders.find? (fun r => r.id = orderID)).map (fun r => r.status)

/-- The statement
`UPDATE orders SET status = 'cancelled', updated_at = NOW() WHERE id = ?`. -/
def execCancel (db : DB) (orderID : Int) (now : Nat) : DB :=
  { db with orders := db.orders.map (fun r =>
      if r.id = orderID then { r with status := "cancelled", updated_at := now } else r) }

/-! ## Event consumer (`consumers/order_consumer.go`) -/

/-- What the consumer does to the delivery, to its handlers and to the database
driver, in the order in which it does it. -/
inductive Effect where
  | Nack (multiple requeue : Bool)
  | Ack (multiple : Bool)
  | handleOrderCreated (orderID : Int)
  | handleStatusUpdated (orderID : Int)
  | handlePaymentCheck (orderID : Int)
  | QueryRow (orderID : Int)
  | Exec (orderID : Int)
  deriving DecidableEq

/-- The inputs of a consumer run that the code does not control: whether the
driver fails the status read or the cancelling update, and the database clock. -/
structure ConsumerEnv where
  queryFails : Bool
  execFails : Bool
  now : Nat

/-- The result of `QueryRow(..).Scan(&status)`: `none` is a non-nil error. -/
def scanStatus (env : ConsumerEnv) (db : DB) (orderID : Int) : Option String :=
  if env.queryFails then none else selectStatus db orderID

/-- The Go function `handleOrderCreated`: it logs only. -/
def handleOrderCreated (_env : ConsumerEnv) (db : DB) (orderID : Int) : DB × List Effect :=
  (db, [Effect.handleOrderCreated orderID])

/-- The Go function `handleStatusUpdated`: it reads the status and logs. -/
def handleStatusUpdated (env : ConsumerEnv) (db : DB) (orderID : Int) : DB × List Effect :=
  match scanStatus env db orderID with
  | none => (db, [Effect.handleStatusUpdated orderID, Effect.QueryRow orderID])
  | some _status => (db, [Effect.handleStatusUpdated orderID, Effect.QueryRow orderID])

/-- The Go function `handlePaymentCheck`: it reads the status and, when the
status is `pending`, runs the cancelling update. -/
def handlePaymentCheck (env : ConsumerEnv) (db : DB) (orderID : Int) : DB × List Effect :=
  match scanStatus env db orderID with
  | none => (db, [Effect.handlePaymentCheck orderID, Effect.QueryRow orderID])
  | some status =>
    if status = "pending" then
      if env.execFails then
        (db, [Effect.handlePaymentCheck orderID, Effect.QueryRow orderID, Effect.Exec orderID])
      else
        (execCancel db orderID env.now,
          [Effect.handlePaymentCheck orderID, Effect.QueryRow orderID, Effect.Exec orderID])
    else (db, [Effect.handlePaymentCheck orderID, Effect.QueryRow orderID])

/-- The Go function `processOrderMessage` on the body of a delivery. -/
def processOrderMessage (env : ConsumerEnv) (db : DB) (body : GoString) : DB × List Effect :=
  let parts := Split body pipe
  if parts.length < 2 then (db, [Effect.Nack false false])
  else
    match Atoi (parts.getD 0 []) with
    | none => (db, [Effect.Nack false false])
    | some orderID =>
      let eventType := parts.getD 1 []
      let handled : DB × List Effect :=
        if eventType = lit "created" then handleOrderCreated env db orderID
        else if eventType = lit "status_updated" then handleStatusUpdated env db orderID
        else if eventType = lit "payment_check" then handlePaymentCheck env db orderID
        else (db, [])
      (handled.1, handled.2 ++ [Effect.Ack false])

/-- The Go function `processDeadLetterMessage`: it logs and acknowledges. -/
def processDeadLetterMessage (db : DB) (_body : GoString) : DB × List Effect :=
  (db, [Effect.Ack false])

/-! ## Configuration (`config/config.go`) -/

/-- The broker fields of the Go struct `config.Config`. -/
structure Config where
  OrderExchange : String
  OrderQueue : String
  DeadLetterQueue : String
  DelayExchange : String
  MaxPriority : Int
  deriving DecidableEq

/-- The Go function `getEnv` over the process environment `environ`
(`os.Getenv` answers the empty string for an unset variable). -/
def getEnv (environ : String → String) (key defaultValue : String) : String :=
  if environ key ≠ "" then environ key else defaultValue

/-- The broker fields of the Go function `LoadConfig`. -/
def LoadConfig (environ : String → String) : Config :=
  { OrderExchange := getEnv environ "ORDER_EXCHANGE" "orders_exchange"
    OrderQueue := getEnv environ "ORDER_QUEUE" "orders_queue"
    DeadLetterQueue := getEnv environ "DEAD_LETTER_QUEUE" "dead_letter_queue"
    DelayExchange := getEnv environ "DELAY_EXCHANGE" "delay_exchange"
    MaxPriority := 10 }

/-- The configuration loaded when no variable is set. -/
def defaultConfig : Config := LoadConfig (fun _ => "")

/-! ## Broker topology (`rabbitmq/rabbitmq.go`, `SetupQueues`) -/

/-- A value of an `amqp.Table`. -/
inductive TableValue where
  | str (s : String)
  | int (n : Int)
  deriving DecidableEq

/-- An `amqp.Table`; `nil` is the empty table. -/
abbrev Table := List (String × TableValue)

/-- An exchange as `ExchangeDeclare` declares it. -/
structure Exchange where
  name : String
  kind : String
  durable : Bool
  autoDelete : Bool
  internal : Bool
  args : Table
  deriving DecidableEq

/-- A queue as `QueueDeclare` declares it. -/
structure Queue where
  name : String
  durable : Bool
  autoDelete : Bool
  exclusive : Bool
  args : Table
  deriving DecidableEq

/-- A binding as `QueueBind` declares it. -/
structure Binding where
  queue : String
  key : String
  exchange : String
  deriving DecidableEq

/-- The declarations held by the broker. -/
structure Broker where
  exchanges : List Exchange
  queues : List Queue
  bindings : List Binding
  deriving DecidableEq

/-- A broker that holds no declaration. -/
def Broker.empty : Broker := { exchanges := [], queues := [], bindings := [] }

/-- The call `Channel.ExchangeDeclare` when the broker accepts it. -/
def ExchangeDeclare (b : Broker) (e : Exchange) : Broker :=
  { b with exchanges := b.exchanges ++ [e] }

/-- The call `Channel.QueueDeclare` when the broker accepts it. -/
def QueueDeclare (b : Broker) (q : Queue) : Broker :=
  { b with queues := b.queues ++ [q] }

/-- The call `Channel.QueueBind` when the broker accepts it. -/
def QueueBind (b : Broker) (queue key exchange : String) : Broker :=
  { b with bindings := b.bindings ++ [{ queue := queue, key := key, exchange := exchange }] }

/-- Which broker calls of `SetupQueues` come back with an error. -/
structure SetupFaults where
  deadLetterExchange : Bool
  deadLetterQueue : Bool
  deadLetterBind : Bool
  delayExchange : Bool
  orderQueue : Bool
  orderBind : Bool

/-- A run of `SetupQueues` in which the broker accepts every call. -/
def SetupFaults.none : SetupFaults :=
  { deadLetterExchange := false, deadLetterQueue := false, deadLetterBind := false,
    delayExchange := false, orderQueue := false, orderBind := false }

/-- The Go method `SetupQueues`: the broker after the declarations, or the step
whose error is returned. A failed declaration of the delay exchange is logged
and setup goes on. -/
def SetupQueues (cfg : Config) (f : SetupFaults) (b : Broker) : Except String Broker :=
  if f.deadLetterExchange then .error "ExchangeDeclare dead-letter exchange" else
  let b := ExchangeDeclare b
    { name := cfg.DeadLetterQueue ++ "_exchange", kind := "direct", durable := true,
      autoDelete := false, internal := false, args := [] }
  if f.deadLetterQueue then .error "QueueDeclare dead-letter queue" else
  let b := QueueDeclare b
    { name := cfg.DeadLetterQueue, durable := true, autoDelete := false, exclusive := false,
      args := [("x-queue-type", .str "classic")] }
  if f.deadLetterBind then .error "QueueBind dead-letter queue" else
  let b := QueueBind b cfg.DeadLetterQueue "" (cfg.DeadLetterQueue ++ "_exchange")
  let b := if f.delayExchange then b else ExchangeDeclare b
    { name := cfg.DelayExchange, kind := "x-delayed-message", durable := true,
      autoDelete := false, internal := false, args := [("x-delayed-type", .str "direct")] }
  if f.orderQueue then .error "QueueDeclare order queue" else
  let b := QueueDeclare b
    { name := cfg.OrderQueue, durable := true, autoDelete := false, exclusive := false,
      args := [("x-max-priority", .int cfg.MaxPriority),
               ("x-dead-letter-exchange", .str (cfg.DeadLetterQueue ++ "_exchange")),
               ("x-dead-letter-routing-key", .str cfg.DeadLetterQueue)] }
  if f.orderBind then .error "QueueBind order queue" else
  .ok (QueueBind b cfg.OrderQueue "" cfg.OrderExchange)

/-- AMQP direct routing: the queues that a message published to `exchange`
with routing key `key` reaches, one entry per binding of the exchange whose
binding key equals the routing key. -/
def route (b : Broker) (exchange key : String) : List String :=
  (b.bindings.filter (fun bd => bd.exchange = exchange ∧ bd.key = key)).map (fun bd => bd.queue)

/-- AMQP dead-lettering: the queues that receive a message rejected without
requeue from `queue`, where it had arrived with routing key `key`. The message
is republished to the queue's `x-dead-letter-exchange` with its
`x-dead-letter-routing-key`, or with its own routing key when none is set; a
queue without a dead-letter exchange drops it. -/
def deadLetter (b : Broker) (queue key : String) : List String :=
  match b.queues.find? (fun q => q.name = queue) with
  | none => []
  | some q =>
    match q.args.lookup "x-dead-letter-exchange" with
    | some (.str dlx) =>
      match q.args.lookup "x-dead-letter-routing-key" with
      | some (.str k) => route b dlx k
      | _ => route b dlx key
    | _ => []

/-- The number of copies of a rejected message that reach the dead-letter queue. -/
def deadLetterDeliveries (cfg : Config) (b : Broker) (key : String) : Nat :=
  (deadLetter b cfg.OrderQueue key).count cfg.DeadLetterQueue

/-! ## Event publisher (`rabbitmq/rabbitmq.go`) -/

/-- The fields of `amqp.Publishing` that the publisher sets; `Priority` is a `uint8`. -/
structure Publishing where
  DeliveryMode : Nat
  Timestamp : Nat
  ContentType : String
  Body : GoString
  Priority : Nat
  Headers : Table
  deriving DecidableEq

/-- A call of `Channel.Publish`. -/
structure Publish where
  exchange : String
  key : String
  mandatory : Bool
  immediate : Bool
  msg : Publishing
  deriving DecidableEq

/-- The constant `amqp.Persistent`. -/
def Persistent : Nat := 2

/-- The Go conversion `uint8(n)` of an `int`. -/
def toUint8 (n : Int) : Nat := (n % 256).toNat

/-- A `time.Duration` counts nanoseconds; this is `time.Minute`. -/
def Minute : Int := 60 * 1000000000

/-- The Go method `Duration.Milliseconds`. -/
def Milliseconds (d : Int) : Int := Int.tdiv d 1000000

/-- The Go method `PublishOrderEvent`: the publish call it makes, `now` being
the reading of `time.Now()`. -/
def PublishOrderEvent (cfg : Config) (now : Nat) (orderID : Int) (priority : Int)
    (eventType : GoString) : Publish :=
  { exchange := cfg.OrderExchange, key := "", mandatory := false, immediate := false,
    msg := { DeliveryMode := Persistent, Timestamp := now, ContentType := "text/plain",
             Body := eventBody orderID eventType, Priority := toUint8 priority, Headers := [] } }

/-- The Go method `PublishDelayedEvent`: the publish call it makes. -/
def PublishDelayedEvent (cfg : Config) (now : Nat) (orderID : Int) (delay : Int)
    (eventType : GoString) : Publish :=
  { exchange := cfg.DelayExchange, key := "", mandatory := false, immediate := false,
    msg := { DeliveryMode := Persistent, Timestamp := now, ContentType := "text/plain",
             Body := eventBody orderID eventType, Priority := 0,
             Headers := [("x-delay", .int (Milliseconds delay))] } }

/-! ## Controllers (`controllers/order_controller.go`) -/

/-- The JSON bodies that the two controllers answer with. -/
inductive JSONBody where
  | error (msg : String)
  | orderID (id : Int)
  | statusUpdated (id : Int)
  deriving DecidableEq

/-- What a controller call leaves behind: the committed database, the calls of
`c.JSON` (HTTP status and body) and the calls of `Channel.Publish`, in order. -/
structure Outcome where
  db : DB
  responses : List (Nat × JSONBody)
  published : List Publish
  deriving DecidableEq

/-- Which driver calls of a `CreateOrder` transaction come back with an error,
and the identifier that the database assigns to the inserted order row. -/
structure DbFaults where
  beginFails : Bool
  insertOrderFails : Bool
  assignedID : Int
  lastInsertIdFails : Bool
  insertItemFails : Nat → Bool
  rollbackFails : Bool
  commitFails : Bool

/-- The outcome of `c.ShouldBindJSON(&order)`: `parsed` is the decoded body
(`none` when it is not JSON of the right shape); the tag `binding:"required"`
on `Total` refuses the zero value. The tag on `Items` refuses the nil slice
only, which the length check of `CreateOrder` refuses as well. -/
def bindOrder (parsed : Option Order) : Except String Order :=
  match parsed with
  | none => .error "invalid request body"
  | some order =>
    if order.Total = 0 then .error "Field validation for Total failed on the required tag"
    else .ok order

/-- The loop `for _, item := range order.Items { order.Total += item.Price * float64(item.Quantity) }`
started from the value `total` of `order.Total`. The sum is exact here; the
`float64` sum of the source rounds, so the two agree on amounts that `float64`
adds without rounding, as the amounts of the concrete inputs below are. -/
def addItemTotals (total : ℚ) (items : List OrderItem) : ℚ :=
  items.foldl (fun t item => t + item.Price * (item.Quantity : ℚ)) total

/-- The statement `INSERT INTO orders (user_id, total, status, created_at, updated_at)`
inside the transaction; the database assigns `id`. -/
def insertOrder (tx : DB) (id : Int) (order : Order) : DB :=
  { tx with orders := tx.orders ++
      [{ id := id, user_id := order.UserID, total := order.Total, status := order.Status,
         created_at := order.CreatedAt, updated_at := order.UpdatedAt }] }

/-- The statement `INSERT INTO order_items (order_id, product_id, product_name, quantity, price)`
inside the transaction. -/
def insertItem (tx : DB) (orderID : Int) (item : OrderItem) : DB :=
  { tx with order_items := tx.order_items ++
      [{ order_id := orderID, product_id := item.ProductID, product_name := item.ProductName,
         quantity := item.Quantity, price := item.Price }] }

/-- The loop of `CreateOrder` that inserts the line items, from the item at
position `i`; `none` when an insert fails. -/
def insertItems (f : DbFaults) (orderID : Int) : Nat → List OrderItem → DB → Option DB
  | _, [], tx => some tx
  | i, item :: rest, tx =>
    if f.insertItemFails i then none
    else insertItems f orderID (i + 1) rest (insertItem tx orderID item)

/-- The error path of `CreateOrder` inside the transaction: `tx.Rollback()`,
then the answer 500 unless the rollback itself failed. The committed database
is the one from before the transaction. -/
def rollbackWith (f : DbFaults) (db : DB) (msg : String) : Outcome :=
  if f.rollbackFails then { db := db, responses := [], published := [] }
  else { db := db, responses := [(500, .error msg)], published := [] }

/-- The priority that `CreateOrder` gives the `created` event. -/
def createdPriority (total : ℚ) : Int := if total > 1000 then 9 else 5

/-- The Go function `CreateOrder`. `rabbitMQ` is the package variable (`none`
for nil), `userID` the value of the context key, `parsed` the decoded body,
`clock k` the k-th reading of `time.Now()`. -/
def CreateOrder (rabbitMQ : Option Config) (f : DbFaults) (clock : Nat → Nat)
    (userID : Option Int) (parsed : Option Order) (db : DB) : Outcome :=
  match userID with
  | none => { db := db, responses := [(401, .error "User not authenticated")], published := [] }
  | some uid =>
    match bindOrder parsed with
    | .error e => { db := db, responses := [(400, .error e)], published := [] }
    | .ok order =>
      if order.Items.length = 0 then
        { db := db, responses := [(400, .error "Order must contain at least one item")],
          published := [] }
      else
        let order := { order with UserID := uid, Status := "pending",
                                  CreatedAt := clock 0, UpdatedAt := clock 1 }
        let order := { order with Total := addItemTotals order.Total order.Items }
        if f.beginFails then
          { db := db, responses := [(500, .error "Could not start transaction")], published := [] }
        else if f.insertOrderFails then rollbackWith f db "Failed to create order"
        else
          let tx := insertOrder db f.assignedID order
          if f.lastInsertIdFails then rollbackWith f db "Failed to get order ID"
          else
            let orderID := f.assignedID
            match insertItems f orderID 0 order.Items tx with
            | none => rollbackWith f db "Failed to add order item"
            | some tx =>
              if f.commitFails then
                { db := db, responses := [(500, .error "Transaction commit failed")],
                  published := [] }
              else
                { db := tx
                  responses := [(201, .orderID orderID), (201, .orderID orderID)]
                  published :=
                    match rabbitMQ with
                    | none => []
                    | some cfg =>
                      [PublishOrderEvent cfg (clock 2) orderID (createdPriority order.Total)
                         (lit "created"),
                       PublishDelayedEvent cfg (clock 3) orderID (15 * Minute)
                         (lit "payment_check")] }

/-- The values that the tag `oneof=pending processing shipped delivered cancelled` admits. -/
def validStatuses : List String := ["pending", "processing", "shipped", "delivered", "cancelled"]

/-- The outcome of `c.ShouldBindJSON(&request)` in `UpdateOrderStatus`, under the
tag `binding:"required,oneof=pending processing shipped delivered cancelled"`. -/
def bindStatus (parsed : Option String) : Except String String :=
  match parsed with
  | none => .error "invalid request body"
  | some status =>
    if status = "" then .error "Field validation for Status failed on the required tag"
    else if status ∈ validStatuses then .ok status
    else .error "Field validation for Status failed on the oneof tag"

/-- The statement
`UPDATE orders SET status = ?, updated_at = NOW() WHERE id = ? AND user_id = ?`. -/
def execUpdateStatus (db : DB) (status : String) (orderID userID : Int) (now : Nat) : DB :=
  { db with orders := db.orders.map (fun r =>
      if r.id = orderID ∧ r.user_id = userID then { r with status := status, updated_at := now }
      else r) }

/-- The value of `result.RowsAffected()` for that statement: the rows that the
`WHERE` clause selects. -/
def rowsAffected (db : DB) (orderID userID : Int) : Nat :=
  (db.orders.filter (fun r => r.id = orderID ∧ r.user_id = userID)).length

/-- The priority that `UpdateOrderStatus` gives the `status_updated` event. -/
def statusPriority (status : String) : Int := if status = "cancelled" then 8 else 5

/-- The Go function `UpdateOrderStatus`. `idParam` is `c.Param("id")`,
`execFails` tells whether the driver fails the update, `now` is the database
clock and `clock 0` the reading of `time.Now()` of the publisher. -/
def UpdateOrderStatus (rabbitMQ : Option Config) (execFails : Bool) (now : Nat)
    (clock : Nat → Nat) (userID : Option Int) (idParam : GoString) (parsed : Option String)
    (db : DB) : Outcome :=
  match userID with
  | none => { db := db, responses := [(401, .error "User not authenticated")], published := [] }
  | some uid =>
    match Atoi idParam with
    | none => { db := db, responses := [(400, .error "Invalid order ID")], published := [] }
    | some orderID =>
      match bindStatus parsed with
      | .error e => { db := db, responses := [(400, .error e)], published := [] }
      | .ok status =>
        if execFails then
          { db := db, responses := [(500, .error "Database error")], published := [] }
        else
          let db1 := execUpdateStatus db status orderID uid now
          if rowsAffected db orderID uid = 0 then
            { db := db1, responses := [(404, .error "Order not found or not authorized")],
              published := [] }
          else
            { db := db1
              responses := [(200, .statusUpdated orderID), (200, .statusUpdated orderID)]
              published :=
                match rabbitMQ with
                | none => []
                | some cfg =>
                  [PublishOrderEvent cfg (clock 0) orderID (statusPriority status)
                     (lit "status_updated")] }

/-! ## Specification-side definitions and concrete inputs -/

/-- A consumer run in which the driver answers every call. -/
def healthyEnv : ConsumerEnv := { queryFails := false, execFails := false, now := 1000 }

/-- A database without rows. -/
def emptyDB : DB := { orders := [], order_items := [] }

/-- The sum over line items of price times quantity: the total that the
specification gives an order. -/
def lineItemSum (items : List OrderItem) : ℚ :=
  (items.map (fun item => item.Price * (item.Quantity : ℚ))).sum

/-- A transaction in which the driver answers every call; the database assigns
the identifier 12345. -/
def noFaults : DbFaults :=
  { beginFails := false, insertOrderFails := false, assignedID := 12345,
    lastInsertIdFails := false, insertItemFails := fun _ => false, rollbackFails := false,
    commitFails := false }

/-- Two line items: quantity 2 at 10.00 and quantity 1 at 5.00. -/
def sampleItems : List OrderItem :=
  [{ ProductID := 1, ProductName := "pen", Quantity := 2, Price := 10 },
   { ProductID := 2, ProductName := "ink", Quantity := 1, Price := 5 }]

/-- A decoded request body whose own `total` field is 100. -/
def sampleOrder : Order :=
  { ID := 0, UserID := 0, Total := 100, Status := "", CreatedAt := 0, UpdatedAt := 0,
    Items := sampleItems }

/-- A clock that reads 0, 1, 2, ... -/
def tick : Nat → Nat := fun k => k

/-- Two orders of two users: order 1 of user 7 is `pending`, order 2 of user 8
is `shipped`. -/
def sampleDB : DB :=
  { orders := [{ id := 1, user_id := 7, total := 25, status := "pending",
                 created_at := 10, updated_at := 10 },
               { id := 2, user_id := 8, total := 30, status := "shipped",
                 created_at := 20, updated_at := 30 }]
    order_items := [{ order_id := 1, product_id := 1, product_name := "pen",
                      quantity := 2, price := 10 }] }

/-- An ASCII decimal digit. -/
def isDigit (b : Nat) : Bool := decide (48 ≤ b ∧ b ≤ 57)

/-- One or more ASCII decimal digits. -/
def isDecimal (s : GoString) : Bool := !s.isEmpty && s.all isDigit

/-- A decimal integer numeral: an optional sign `+` or `-`, then one or more
decimal digits. -/
def isSignedDecimal (s : GoString) : Bool :=
  match s with
  | [] => false
  | b :: rest => if b = 43 ∨ b = 45 then isDecimal rest else isDecimal s

/-- A transaction in which the insert of the second line item fails. -/
def secondItemFails : DbFaults :=
  { beginFails := false, insertOrderFails := false, assignedID := 12345,
    lastInsertIdFails := false, insertItemFails := fun i => decide (i = 1),
    rollbackFails := false, commitFails := false }

/-- The owner of an order: the `user_id` of the first row with that identifier,
the row whose status `selectStatus` reads. -/
def selectOwner (db : DB) (orderID : Int) : Option Int :=
  (db.orders.find? (fun r => r.id = orderID)).map (fun r => r.user_id)

/-- Two orders of user 7 in a final status: order 3 is `cancelled`, order 4 is
`delivered`. -/
def terminalDB : DB :=
  { orders := [{ id := 3, user_id := 7, total := 25, status := "cancelled",
                 created_at := 10, updated_at := 40 },
               { id := 4, user_id := 7, total := 30, status := "delivered",
                 created_at := 20, updated_at := 50 }]
    order_items := [] }

/-- The queues that receive the message of a call of `Channel.Publish`. -/
def delivered (b : Broker) (p : Publish) : List String := route b p.exchange p.key

/-- The acknowledgements in a trace of the consumer: its `Ack` and `Nack` calls. -/
def acknowledgements (trace : List Effect) : List Effect :=
  trace.filter (fun e =>
    match e with
    | .Ack _ => true
    | .Nack _ _ => true
    | _ => false)

/-- A consumer run in which the driver fails the status read. -/
def readFailsEnv : ConsumerEnv := { queryFails := true, execFails := false, now := 1000 }

/-- A consumer run in which the driver fails the cancelling update. -/
def updateFailsEnv : ConsumerEnv := { queryFails := false, execFails := true, now := 1000 }

/-- A decoded request body whose own `total` field is 600 and whose one line
item is quantity 1 at 600.00. -/
def order600 : Order :=
  { ID := 0, UserID := 0, Total := 600, Status := "", CreatedAt := 0, UpdatedAt := 0,
    Items := [{ ProductID := 3, ProductName := "desk", Quantity := 1, Price := 600 }] }

/-! ## Theorems: Go library functions -/

/-- The separator literal is the single byte `'|'`. -/
theorem lit_pipe : lit "|" = [pipe] := by decide

/-- A byte built by or-ing onto a value with bit 7 set is at least 128. -/
theorem high_bit_or (k x : Nat) (hk : k.testBit 7 = true) : 128 ≤ k ||| x := by
  have h : (k ||| x).testBit 7 = true := by simp [Nat.testBit_or, hk]
  simpa using Nat.testBit_implies_ge h

/-- `strings.Split` returns at least one piece. -/
theorem Split_ne_nil (s : GoString) (sep : Nat) : Split s sep ≠ [] := by
  induction s with
  | nil => simp [Split]
  | cons b rest ih =>
    unfold Split
    split
    · simp
    · split
      · simp
      · simp

/-- Splitting after a first field that holds no separator. -/
theorem Split_append_sep (p rest : GoString) (sep : Nat) (hp : sep ∉ p) :
    Split (p ++ sep :: rest) sep = p :: Split rest sep := by
  induction p with
  | nil => simp [Split]
  | cons b p ih =>
    have hb : b ≠ sep := fun h => hp (by simp [h])
    have hp2 : sep ∉ p := fun h => hp (by simp [h])
    simp only [List.cons_append]
    rw [Split, if_neg hb, ih hp2]

/-- The digit reader refuses a byte above `'9'`. -/
theorem parseDigits_head_none (acc b : Nat) (rest : GoString) (hb : 57 < b) :
    parseDigits acc (b :: rest) = none := by
  simp [parseDigits]; omega

/-- `strconv.Atoi` refuses a field that starts with a byte above `'9'`. -/
theorem Atoi_head_none (b : Nat) (rest : GoString) (hb : 57 < b) : Atoi (b :: rest) = none := by
  have h1 : b ≠ 45 := by omega
  have h2 : b ≠ 43 := by omega
  simp [Atoi, h1, h2, parseDigits_head_none 0 b rest hb]

/-- The decode step on a body whose first field holds no separator. -/
theorem decodeStep_before_sep (p rest : GoString) (hp : pipe ∉ p) :
    decodeStep (p ++ pipe :: rest) =
      (Atoi p).map (fun d => (d, (Split rest pipe).getD 0 [])) := by
  have hlen : ¬ ((Split rest pipe).length + 1 < 2) := by
    have := Split_ne_nil rest pipe
    cases h : Split rest pipe with
    | nil => exact absurd h this
    | cons a l => simp
  unfold decodeStep
  simp only [Split_append_sep p rest pipe hp, List.length_cons, hlen, if_false]
  cases hA : Atoi p <;> simp [hA]

/-- A one-byte field that `strconv.Atoi` parses is one digit. -/
theorem Atoi_single (b : Nat) (d : Int) (h : Atoi [b] = some d) :
    48 ≤ b ∧ b ≤ 57 ∧ d = (b : Int) - 48 := by
  unfold Atoi at h
  by_cases h1 : b = 45
  · simp [h1] at h
  · by_cases h2 : b = 43
    · simp [h2] at h
    · simp only [h1, h2, if_false, parseDigits] at h
      by_cases h3 : 48 ≤ b ∧ b ≤ 57
      · simp only [h3, and_self, if_true, Option.bind, Nat.zero_mul, Nat.zero_add] at h
        split at h
        · simp at h
          omega
        · simp at h
      · simp [h3] at h

/-- The decode step refuses a body whose first field consists of bytes of a
multi-byte UTF-8 sequence. -/
theorem decodeStep_high_bytes (b0 : Nat) (tail rest : GoString) (h0 : 128 ≤ b0)
    (ht : ∀ b ∈ tail, 128 ≤ b) : decodeStep ((b0 :: tail) ++ pipe :: rest) = none := by
  have hnot : pipe ∉ b0 :: tail := by
    intro h
    rcases List.mem_cons.1 h with h | h
    · unfold pipe at h; omega
    · have := ht _ h
      unfold pipe at this; omega
  rw [decodeStep_before_sep _ _ hnot, Atoi_head_none b0 tail (by omega)]
  rfl

/-- No order identifier survives the codec: whatever the identifier and the
event type, the decode step never returns the identifier that was published. -/
theorem eventBody_not_decoded_to_orderID (orderID : Int) (eventType kind : GoString) :
    decodeStep (eventBody orderID eventType) ≠ some (orderID, kind) := by
  unfold eventBody runeToString
  rw [lit_pipe, List.append_assoc, List.singleton_append]
  unfold encoderune
  simp only
  split
  · rename_i h
    by_cases hp : (rune orderID % 4294967296).toNat = pipe
    · rw [hp]
      simp [decodeStep, Split, Atoi, pipe]
    · have hnot : pipe ∉ [(rune orderID % 4294967296).toNat] := by
        simp; exact fun h => hp h.symm
      rw [decodeStep_before_sep _ _ hnot]
      intro hc
      cases hA : Atoi [(rune orderID % 4294967296).toNat] with
      | none => simp [hA] at hc
      | some d =>
        simp [hA] at hc
        obtain ⟨h1, h2, h3⟩ := Atoi_single _ _ hA
        have hd : d = orderID := hc.1
        unfold rune at h1 h2 h3
        omega
  · split
    · rw [decodeStep_high_bytes _ _ _ (high_bit_or 0xC0 _ (by decide))
        (by simp; exact high_bit_or 0x80 _ (by decide))]
      simp
    · split
      · rw [decodeStep_high_bytes _ _ _ (by decide) (by simp)]
        simp
      · split
        · rw [decodeStep_high_bytes _ _ _ (high_bit_or 0xE0 _ (by decide))
            (by simp; exact ⟨high_bit_or 0x80 _ (by decide), high_bit_or 0x80 _ (by decide)⟩)]
          simp
        · rw [decodeStep_high_bytes _ _ _ (high_bit_or 0xF0 _ (by decide))
            (by simp; exact ⟨high_bit_or 0x80 _ (by decide), high_bit_or 0x80 _ (by decide),
                  high_bit_or 0x80 _ (by decide)⟩)]
          simp

/-! ## Theorems: event codec -/

/-- C1 (the code departs from the claim): the body that `PublishOrderEvent`
builds for the order identifier 12345 and the kind `created` holds the three
UTF-8 bytes of the code point U+3039 before the separator, and the decode step
of the consumer rejects it, so the event does not come back. -/
theorem eventBody_12345_rejected :
    eventBody 12345 (lit "created") = [0xE3, 0x80, 0xB9, 124, 99, 114, 101, 97, 116, 101, 100] ∧
    decodeStep (eventBody 12345 (lit "created")) = none ∧
    processOrderMessage healthyEnv emptyDB (eventBody 12345 (lit "created")) =
      (emptyDB, [Effect.Nack false false]) := by
  decide

/-! ## Theorems: order creation -/

/-- The accumulation loop adds the line-item sum to the value that
`order.Total` holds when the loop starts. -/
theorem addItemTotals_eq (total : ℚ) (items : List OrderItem) :
    addItemTotals total items = total + lineItemSum items := by
  unfold addItemTotals lineItemSum
  induction items generalizing total with
  | nil => simp
  | cons item rest ih =>
    simp only [List.foldl_cons, List.map_cons, List.sum_cons]
    rw [ih]
    ring

/-- When no insert fails, the item loop appends one row per line item. -/
theorem insertItems_ok (f : DbFaults) (orderID : Int) (hf : ∀ i, f.insertItemFails i = false)
    (items : List OrderItem) (k : Nat) (tx : DB) :
    insertItems f orderID k items tx =
      some { tx with order_items := tx.order_items ++ items.map (fun item =>
        { order_id := orderID, product_id := item.ProductID, product_name := item.ProductName,
          quantity := item.Quantity, price := item.Price }) } := by
  induction items generalizing k tx with
  | nil => simp [insertItems]
  | cons item rest ih =>
    simp [insertItems, hf, ih, insertItem]

/-- When an insert at or after position `k` fails, the item loop fails. -/
theorem insertItems_fail (f : DbFaults) (orderID : Int) (items : List OrderItem) (k : Nat)
    (tx : DB) (i : Nat) (hi : i < items.length) (hfail : f.insertItemFails (k + i) = true) :
    insertItems f orderID k items tx = none := by
  induction items generalizing k tx i with
  | nil => simp at hi
  | cons item rest ih =>
    unfold insertItems
    by_cases h0 : f.insertItemFails k = true
    · simp [h0]
    · simp only [h0]
      cases i with
      | zero => simp at hfail; exact absurd hfail h0
      | succ j =>
        have hj : j < rest.length := by simpa using hi
        have : f.insertItemFails (k + 1 + j) = true := by
          have e : k + 1 + j = k + (j + 1) := by omega
          rw [e]; exact hfail
        simpa using ih (k + 1) (insertItem tx orderID item) j hj this

/-- A request that `CreateOrder` accepts and commits: the order row, the item
rows, the two answers 201 and the two publish calls. The total on the row is
the `total` field of the request plus the line-item sum. -/
theorem CreateOrder_commits (rabbitMQ : Option Config) (f : DbFaults) (clock : Nat → Nat)
    (uid : Int) (order : Order) (db : DB)
    (htotal : order.Total ≠ 0) (hitems : order.Items ≠ [])
    (hbegin : f.beginFails = false) (hins : f.insertOrderFails = false)
    (hid : f.lastInsertIdFails = false) (hitem : ∀ i, f.insertItemFails i = false)
    (hcommit : f.commitFails = false) :
    CreateOrder rabbitMQ f clock (some uid) (some order) db =
      { db :=
          { orders := db.orders ++
              [{ id := f.assignedID, user_id := uid,
                 total := order.Total + lineItemSum order.Items, status := "pending",
                 created_at := clock 0, updated_at := clock 1 }]
            order_items := db.order_items ++ order.Items.map (fun item =>
              { order_id := f.assignedID, product_id := item.ProductID,
                product_name := item.ProductName, quantity := item.Quantity,
                price := item.Price }) }
        responses := [(201, .orderID f.assignedID), (201, .orderID f.assignedID)]
        published :=
          match rabbitMQ with
          | none => []
          | some cfg =>
            [PublishOrderEvent cfg (clock 2) f.assignedID
               (createdPriority (order.Total + lineItemSum order.Items)) (lit "created"),
             PublishDelayedEvent cfg (clock 3) f.assignedID (15 * Minute)
               (lit "payment_check")] } := by
  have hlen : order.Items.length ≠ 0 := by
    intro h; exact hitems (List.length_eq_zero.1 h)
  simp [CreateOrder, bindOrder, htotal, hlen, hbegin, hins, hid, hcommit,
    insertItems_ok f f.assignedID hitem, insertOrder, addItemTotals_eq]

/-- No committed request is written with the line-item sum as its total: the
binding refuses a zero `total`, and the loop adds the sum onto that field. -/
theorem CreateOrder_total_ne_lineItemSum (rabbitMQ : Option Config) (f : DbFaults)
    (clock : Nat → Nat) (uid : Int) (order : Order) (db : DB)
    (htotal : order.Total ≠ 0) (hitems : order.Items ≠ [])
    (hbegin : f.beginFails = false) (hins : f.insertOrderFails = false)
    (hid : f.lastInsertIdFails = false) (hitem : ∀ i, f.insertItemFails i = false)
    (hcommit : f.commitFails = false) :
    ∃ row, (CreateOrder rabbitMQ f clock (some uid) (some order) db).db.orders =
        db.orders ++ [row] ∧
      row.total = order.Total + lineItemSum order.Items ∧
      row.total ≠ lineItemSum order.Items := by
  rw [CreateOrder_commits rabbitMQ f clock uid order db htotal hitems hbegin hins hid hitem
    hcommit]
  refine ⟨_, rfl, rfl, ?_⟩
  intro h
  exact htotal (by simpa using h)

/-- C2 (the code departs from the claim): a committed request with the line
items (2 at 10.00, 1 at 5.00) and the value 100 in its own `total` field; the
line-item sum is 25 and the total written to the `orders` row is 125. -/
theorem CreateOrder_total_includes_request_total :
    lineItemSum sampleOrder.Items = 25 ∧
    (CreateOrder none noFaults tick (some 7) (some sampleOrder) emptyDB).responses =
      [(201, .orderID 12345), (201, .orderID 12345)] ∧
    (CreateOrder none noFaults tick (some 7) (some sampleOrder) emptyDB).db.orders =
      [{ id := 12345, user_id := 7, total := 125, status := "pending",
         created_at := 0, updated_at := 1 }] := by
  have h := CreateOrder_commits none noFaults tick 7 sampleOrder emptyDB
    (by simp [sampleOrder]) (by simp [sampleOrder, sampleItems]) rfl rfl rfl (fun _ => rfl) rfl
  have hs : lineItemSum sampleOrder.Items = 25 := by
    simp [lineItemSum, sampleOrder, sampleItems]; norm_num
  rw [h, hs]
  refine ⟨rfl, rfl, ?_⟩
  simp [emptyDB, noFaults, tick, sampleOrder]
  norm_num

/-! ## Theorems: payment-timeout handler -/

/-- The cancelling update leaves the status of every other order as it was. -/
theorem selectStatus_execCancel_other (db : DB) (orderID j : Int) (now : Nat) (hj : j ≠ orderID) :
    selectStatus (execCancel db orderID now) j = selectStatus db j := by
  unfold selectStatus execCancel
  simp only
  induction db.orders with
  | nil => simp
  | cons r rest ih =>
    by_cases hr : r.id = orderID
    · have hrj : ¬ r.id = j := fun h => hj (h ▸ hr)
      simp only [List.map_cons, hr, if_true, List.find?_cons]
      simp only [hr] at hrj
      simp only [hrj, decide_False]
      simpa [hr] using ih
    · simp only [List.map_cons, hr, if_false, List.find?_cons]
      by_cases hrj : r.id = j
      · simp [hrj]
      · simp only [hrj, decide_False]
        exact ih

/-- The cancelling update sets the status of the order it names, when the
order exists. -/
theorem selectStatus_execCancel_same (db : DB) (orderID : Int) (now : Nat) (s : String)
    (hs : selectStatus db orderID = some s) :
    selectStatus (execCancel db orderID now) orderID = some "cancelled" := by
  obtain ⟨orders, items⟩ := db
  unfold selectStatus execCancel at *
  simp only at *
  induction orders with
  | nil => simp at hs
  | cons r rest ih =>
    by_cases hr : r.id = orderID
    · simp [hr]
    · simp only [List.find?_cons, hr, decide_False] at hs
      simp only [List.map_cons, hr, if_false, List.find?_cons, decide_False]
      exact ih hs

/-- C3: with a status read and an update that succeed, `handlePaymentCheck`
sets the status of the order to `cancelled` when it is `pending`, returns the
store as it was when the order has another status or does not exist, and in
every case leaves the status of every other order and all line items as they were. -/
theorem handlePaymentCheck_policy (env : ConsumerEnv) (db : DB) (orderID : Int)
    (hq : env.queryFails = false) (he : env.execFails = false) :
    (selectStatus db orderID = some "pending" →
      selectStatus (handlePaymentCheck env db orderID).1 orderID = some "cancelled") ∧
    (selectStatus db orderID ≠ some "pending" → (handlePaymentCheck env db orderID).1 = db) ∧
    (∀ j, j ≠ orderID →
      selectStatus (handlePaymentCheck env db orderID).1 j = selectStatus db j) ∧
    (handlePaymentCheck env db orderID).1.order_items = db.order_items := by
  unfold handlePaymentCheck scanStatus
  simp only [hq, he, Bool.false_eq_true, if_false]
  cases hs : selectStatus db orderID with
  | none => simp
  | some status =>
    by_cases hp : status = "pending"
    · subst hp
      refine ⟨fun _ => ?_, fun h => absurd rfl h, fun j hj => ?_, ?_⟩
      · simpa using selectStatus_execCancel_same db orderID env.now _ hs
      · simpa using selectStatus_execCancel_other db orderID j env.now hj
      · simp [execCancel]
    · simp [hp]

/-- C3 at a concrete store: the pending order 1 is cancelled, the shipped
order 2 keeps its status, and a check of order 2 changes nothing. -/
theorem handlePaymentCheck_policy_witness :
    healthyEnv.queryFails = false ∧ healthyEnv.execFails = false ∧
    selectStatus sampleDB 1 = some "pending" ∧
    selectStatus (handlePaymentCheck healthyEnv sampleDB 1).1 1 = some "cancelled" ∧
    selectStatus (handlePaymentCheck healthyEnv sampleDB 1).1 2 = some "shipped" ∧
    (handlePaymentCheck healthyEnv sampleDB 2).1 = sampleDB :=
  ⟨rfl, rfl, by decide,
   (handlePaymentCheck_policy healthyEnv sampleDB 1 rfl rfl).1 (by decide),
   ((handlePaymentCheck_policy healthyEnv sampleDB 1 rfl rfl).2.2.1 2 (by decide)).trans
     (by decide),
   (handlePaymentCheck_policy healthyEnv sampleDB 2 rfl rfl).2.1 (by decide)⟩

/-! ## Theorems: dead-letter topology -/

/-- Under the topology that `SetupQueues` declares on a broker without
declarations, whenever the name of the dead-letter queue is not empty, a
message rejected from the order queue reaches no queue: it is republished with
the routing key `DeadLetterQueue`, and the only binding of the dead-letter
exchange has the empty binding key. -/
theorem deadLetter_reaches_no_queue (cfg : Config) (key : String)
    (hname : cfg.DeadLetterQueue ≠ "") :
    ∃ b, SetupQueues cfg SetupFaults.none Broker.empty = .ok b ∧
      deadLetter b cfg.OrderQueue key = [] := by
  refine ⟨_, rfl, ?_⟩
  have h2 : ¬ ("" = cfg.DeadLetterQueue) := fun h => hname h.symm
  by_cases hq : cfg.DeadLetterQueue = cfg.OrderQueue
  · simp [deadLetter, QueueBind, QueueDeclare, ExchangeDeclare, SetupFaults.none, Broker.empty,
      hq, List.lookup]
  · simp [deadLetter, QueueBind, QueueDeclare, ExchangeDeclare, SetupFaults.none, Broker.empty,
      hq, List.lookup, route, h2]

/-- C4 (the code departs from the claim): under the default configuration,
`SetupQueues` succeeds on a broker without declarations, the dead-letter queue
is bound to the dead-letter exchange with the empty key, and a message
rejected without requeue from `orders_queue` reaches the dead-letter queue
zero times. -/
theorem deadLetter_default_config_zero_deliveries :
    ∃ b, SetupQueues defaultConfig SetupFaults.none Broker.empty = .ok b ∧
      b.bindings = [{ queue := "dead_letter_queue", key := "",
                      exchange := "dead_letter_queue_exchange" },
                    { queue := "orders_queue", key := "", exchange := "orders_exchange" }] ∧
      route b "dead_letter_queue_exchange" "" = ["dead_letter_queue"] ∧
      route b "dead_letter_queue_exchange" "dead_letter_queue" = [] ∧
      deadLetter b "orders_queue" "" = [] ∧
      deadLetterDeliveries defaultConfig b "" = 0 :=
  ⟨_, rfl, by decide, by decide, by decide, by decide, by decide⟩

/-! ## Theorems: consumer, rejected messages -/

/-- The Go function `processOrderMessage`, written over its decode step. -/
theorem processOrderMessage_eq (env : ConsumerEnv) (db : DB) (body : GoString) :
    processOrderMessage env db body =
      match decodeStep body with
      | none => (db, [Effect.Nack false false])
      | some (orderID, eventType) =>
        let handled : DB × List Effect :=
          if eventType = lit "created" then handleOrderCreated env db orderID
          else if eventType = lit "status_updated" then handleStatusUpdated env db orderID
          else if eventType = lit "payment_check" then handlePaymentCheck env db orderID
          else (db, [])
        (handled.1, handled.2 ++ [Effect.Ack false]) := by
  unfold processOrderMessage decodeStep
  by_cases hl : (Split body pipe).length < 2
  · simp only [hl, if_true]
  · simp only [hl, if_false]
    cases Atoi (List.getD (Split body pipe) 0 []) <;> rfl

/-- The consumer rejects the bodies on which the decode step fails. -/
theorem processOrderMessage_of_decode_none (env : ConsumerEnv) (db : DB) (body : GoString)
    (h : decodeStep body = none) :
    processOrderMessage env db body = (db, [Effect.Nack false false]) := by
  rw [processOrderMessage_eq, h]

/-- The decode step fails on a body with fewer than two fields and on a body
whose first field `strconv.Atoi` refuses. -/
theorem decodeStep_none_of (body : GoString)
    (h : (Split body pipe).length < 2 ∨ Atoi ((Split body pipe).getD 0 []) = none) :
    decodeStep body = none := by
  unfold decodeStep
  by_cases hl : (Split body pipe).length < 2
  · simp only [hl, if_true]
  · simp only [hl, if_false]
    rcases h with h | h
    · exact absurd h hl
    · rw [h]

/-- C5: when the body has fewer than two `|`-separated fields, or its first
field is not parsed by `strconv.Atoi`, `processOrderMessage` issues one
`Nack(false, false)` and nothing else (no `Ack`, no handler, no read or write
of the store), and the store is the one it started from. -/
theorem processOrderMessage_nacks_undecodable (env : ConsumerEnv) (db : DB) (body : GoString)
    (h : (Split body pipe).length < 2 ∨ Atoi ((Split body pipe).getD 0 []) = none) :
    processOrderMessage env db body = (db, [Effect.Nack false false]) :=
  processOrderMessage_of_decode_none env db body (decodeStep_none_of body h)

/-- C5 at two bodies: `hello` has one field, and the first field of
`abc|created` is not a number. -/
theorem processOrderMessage_nacks_undecodable_witness :
    (Split (lit "hello") pipe).length < 2 ∧
    Atoi ((Split (lit "abc|created") pipe).getD 0 []) = none ∧
    processOrderMessage healthyEnv sampleDB (lit "hello") =
      (sampleDB, [Effect.Nack false false]) ∧
    processOrderMessage healthyEnv sampleDB (lit "abc|created") =
      (sampleDB, [Effect.Nack false false]) :=
  ⟨by decide, by decide,
   processOrderMessage_nacks_undecodable healthyEnv sampleDB (lit "hello") (Or.inl (by decide)),
   processOrderMessage_nacks_undecodable healthyEnv sampleDB (lit "abc|created")
     (Or.inr (by decide))⟩

/-! ## Theorems: which bodies the decode step refuses -/

/-- A body without the separator is one field. -/
theorem Split_of_not_mem (s : GoString) (sep : Nat) (h : sep ∉ s) : Split s sep = [s] := by
  induction s with
  | nil => simp [Split]
  | cons b rest ih =>
    have hb : b ≠ sep := fun e => h (by simp [e])
    have hr : sep ∉ rest := fun e => h (by simp [e])
    rw [Split, if_neg hb, ih hr]

/-- The first field of a body is what stands before its first separator. -/
theorem Split_first_field (s : GoString) (sep : Nat) :
    (Split s sep).getD 0 [] = s.takeWhile (fun b => b != sep) := by
  induction s with
  | nil => simp [Split]
  | cons b rest ih =>
    by_cases hb : b = sep
    · simp [Split, hb]
    · rw [Split, if_neg hb]
      cases hS : Split rest sep with
      | nil => exact absurd hS (Split_ne_nil rest sep)
      | cons p ps =>
        rw [hS] at ih
        simp at ih
        simp [List.takeWhile_cons, hb, ih]

/-- The digit reader accepts digits only. -/
theorem parseDigits_all_digits (s : GoString) (acc n : Nat) (h : parseDigits acc s = some n) :
    s.all isDigit = true := by
  induction s generalizing acc with
  | nil => simp
  | cons b rest ih =>
    unfold parseDigits at h
    by_cases hb : 48 ≤ b ∧ b ≤ 57
    · simp only [hb, and_self, if_true] at h
      simp [isDigit, hb, ih _ h]
    · simp [hb] at h

/-- What `strconv.Atoi` parses is a decimal integer numeral. -/
theorem Atoi_isSignedDecimal (s : GoString) (d : Int) (h : Atoi s = some d) :
    isSignedDecimal s = true := by
  cases s with
  | nil => simp [Atoi] at h
  | cons b rest =>
    unfold Atoi at h
    unfold isSignedDecimal
    by_cases h1 : b = 45
    · subst h1
      cases rest with
      | nil => simp at h
      | cons c cs =>
        simp only [if_true] at h
        cases hp : parseDigits 0 (c :: cs) with
        | none => simp [hp] at h
        | some n => simp [isDecimal, parseDigits_all_digits _ _ _ hp]
    · by_cases h2 : b = 43
      · subst h2
        cases rest with
        | nil => simp at h
        | cons c cs =>
          simp only [h1, if_false, if_true] at h
          cases hp : parseDigits 0 (c :: cs) with
          | none => simp [hp] at h
          | some n => simp [isDecimal, parseDigits_all_digits _ _ _ hp]
      · simp only [h1, h2, if_false] at h
        cases hp : parseDigits 0 (b :: rest) with
        | none => simp [hp] at h
        | some n =>
          have := parseDigits_all_digits _ _ _ hp
          simp [isDecimal, h1, h2, this]

/-- C6 as amended: the decode step fails, and the consumer rejects the message
without dispatching it, for every payload that holds no `|` separator and for
every payload whose first field is not a decimal integer numeral with an
optional sign. -/
theorem decodeStep_refuses_malformed (env : ConsumerEnv) (db : DB) (body : GoString)
    (h : pipe ∉ body ∨ isSignedDecimal (body.takeWhile (fun b => b != pipe)) = false) :
    decodeStep body = none ∧
    processOrderMessage env db body = (db, [Effect.Nack false false]) := by
  have hd : decodeStep body = none := by
    apply decodeStep_none_of
    rcases h with h | h
    · left
      rw [Split_of_not_mem body pipe h]
      simp
    · right
      rw [Split_first_field]
      cases hA : Atoi (body.takeWhile (fun b => b != pipe)) with
      | none => rfl
      | some d =>
        have := Atoi_isSignedDecimal _ _ hA
        rw [h] at this
        exact absurd this (by decide)
  exact ⟨hd, processOrderMessage_of_decode_none env db body hd⟩

/-- C6 as amended, at the payloads `created` (no separator) and `12a|created`
(the first field is not a numeral). -/
theorem decodeStep_refuses_malformed_witness :
    pipe ∉ lit "created" ∧
    isSignedDecimal ((lit "12a|created").takeWhile (fun b => b != pipe)) = false ∧
    decodeStep (lit "created") = none ∧
    decodeStep (lit "12a|created") = none :=
  ⟨by decide, by decide,
   (decodeStep_refuses_malformed healthyEnv emptyDB (lit "created") (Or.inl (by decide))).1,
   (decodeStep_refuses_malformed healthyEnv emptyDB (lit "12a|created")
     (Or.inr (by decide))).1⟩

/-- C6 as stated fails: the payload `-5|created`, whose identifier field is a
negative integer, is decoded to the identifier -5 and the kind `created`,
dispatched to `handleOrderCreated` and acknowledged. -/
theorem negative_order_id_is_decoded :
    decodeStep (lit "-5|created") = some (-5, lit "created") ∧
    processOrderMessage healthyEnv emptyDB (lit "-5|created") =
      (emptyDB, [Effect.handleOrderCreated (-5), Effect.Ack false]) := by
  decide

/-! ## Theorems: atomicity of order creation -/

/-- The rollback path keeps the committed database and publishes nothing. -/
theorem rollbackWith_keeps (f : DbFaults) (db : DB) (msg : String) :
    (rollbackWith f db msg).db = db ∧ (rollbackWith f db msg).published = [] := by
  unfold rollbackWith
  split <;> simp

/-- C7: if the order insert, the read of the new order identifier, the insert
of a line item of the request or the commit fails, the committed store after
`CreateOrder` is the store before it and no publish call is made. -/
theorem CreateOrder_atomic (rabbitMQ : Option Config) (f : DbFaults) (clock : Nat → Nat)
    (userID : Option Int) (parsed : Option Order) (db : DB)
    (hfail : f.insertOrderFails = true ∨ f.lastInsertIdFails = true ∨
      (∃ order i, parsed = some order ∧ i < order.Items.length ∧ f.insertItemFails i = true) ∨
      f.commitFails = true) :
    (CreateOrder rabbitMQ f clock userID parsed db).db = db ∧
    (CreateOrder rabbitMQ f clock userID parsed db).published = [] := by
  cases userID with
  | none => simp [CreateOrder]
  | some uid =>
    cases parsed with
    | none => simp [CreateOrder, bindOrder]
    | some order =>
      by_cases ht : order.Total = 0
      · simp [CreateOrder, bindOrder, ht]
      by_cases hl : order.Items.length = 0
      · simp [CreateOrder, bindOrder, ht, hl]
      by_cases hb : f.beginFails = true
      · simp [CreateOrder, bindOrder, ht, hl, hb]
      by_cases h1 : f.insertOrderFails = true
      · simpa [CreateOrder, bindOrder, ht, hl, hb, h1] using rollbackWith_keeps f db _
      by_cases h2 : f.lastInsertIdFails = true
      · simpa [CreateOrder, bindOrder, ht, hl, hb, h1, h2] using rollbackWith_keeps f db _
      cases h3 : insertItems f f.assignedID 0 order.Items
          (insertOrder db f.assignedID
            { order with UserID := uid, Status := "pending", CreatedAt := clock 0,
                         UpdatedAt := clock 1,
                         Total := addItemTotals order.Total order.Items }) with
      | none =>
        simpa [CreateOrder, bindOrder, ht, hl, hb, h1, h2, h3] using rollbackWith_keeps f db _
      | some tx =>
        by_cases h4 : f.commitFails = true
        · simp [CreateOrder, bindOrder, ht, hl, hb, h1, h2, h3, h4]
        · exfalso
          rcases hfail with h | h | ⟨o, i, ho, hi, hf⟩ | h
          · exact h1 h
          · exact h2 h
          · have ho2 : order = o := Option.some.inj ho
            subst ho2
            have := insertItems_fail f f.assignedID order.Items 0
              (insertOrder db f.assignedID
                { order with UserID := uid, Status := "pending", CreatedAt := clock 0,
                             UpdatedAt := clock 1,
                             Total := addItemTotals order.Total order.Items }) i hi
              (by simpa using hf)
            rw [this] at h3
            exact absurd h3 (by simp)
          · exact h4 h

/-- C7 at a request whose second line-item insert fails: the store is the one
from before, nothing is published and the answer is 500. -/
theorem CreateOrder_atomic_witness :
    (∃ order i, some sampleOrder = some order ∧ i < order.Items.length ∧
      secondItemFails.insertItemFails i = true) ∧
    (CreateOrder (some defaultConfig) secondItemFails tick (some 7) (some sampleOrder)
      sampleDB).db = sampleDB ∧
    (CreateOrder (some defaultConfig) secondItemFails tick (some 7) (some sampleOrder)
      sampleDB).published = [] :=
  ⟨⟨sampleOrder, 1, rfl, by decide, rfl⟩,
   CreateOrder_atomic (some defaultConfig) secondItemFails tick (some 7) (some sampleOrder)
     sampleDB (Or.inr (Or.inr (Or.inl ⟨sampleOrder, 1, rfl, by decide, rfl⟩)))⟩

/-! ## Theorems: status update -/

/-- Every value of the status enumeration passes the binding of the request. -/
theorem bindStatus_valid (status : String) (hs : status ∈ validStatuses) :
    bindStatus (some status) = .ok status := by
  simp only [validStatuses, List.mem_cons, List.mem_singleton, List.not_mem_nil, or_false] at hs
  rcases hs with h | h | h | h | h <;> subst h <;> rfl

/-- An update that selects no row leaves the table as it was. -/
theorem execUpdateStatus_no_row (db : DB) (status : String) (orderID uid : Int) (now : Nat)
    (hno : ∀ r ∈ db.orders, r.id = orderID → r.user_id ≠ uid) :
    execUpdateStatus db status orderID uid now = db := by
  obtain ⟨orders, items⟩ := db
  unfold execUpdateStatus
  simp only [DB.mk.injEq, and_true]
  simp only at hno
  induction orders with
  | nil => rfl
  | cons r rest ih =>
    have hr : ¬ (r.id = orderID ∧ r.user_id = uid) := fun h => hno r (by simp) h.1 h.2
    simp only [List.map_cons, hr, if_false]
    rw [ih (fun x hx => hno x (List.mem_cons_of_mem _ hx))]

/-- An update that selects no row reports zero rows affected. -/
theorem rowsAffected_no_row (db : DB) (orderID uid : Int)
    (hno : ∀ r ∈ db.orders, r.id = orderID → r.user_id ≠ uid) :
    rowsAffected db orderID uid = 0 := by
  unfold rowsAffected
  rw [List.length_eq_zero, List.filter_eq_nil_iff]
  intro r hr h
  simp only [decide_eq_true_eq] at h
  exact hno r hr h.1 h.2

/-- C8: when no order with the requested identifier is owned by the requesting
user, `UpdateOrderStatus` with a valid new status leaves the store as it was,
publishes nothing, gives no answer with a success status, and answers 404
whenever the database executes the update (a driver error is answered 500). -/
theorem UpdateOrderStatus_not_owner (rabbitMQ : Option Config) (execFails : Bool) (now : Nat)
    (clock : Nat → Nat) (uid : Int) (idParam : GoString) (orderID : Int) (status : String)
    (db : DB) (hid : Atoi idParam = some orderID) (hs : status ∈ validStatuses)
    (hno : ∀ r ∈ db.orders, r.id = orderID → r.user_id ≠ uid) :
    (UpdateOrderStatus rabbitMQ execFails now clock (some uid) idParam (some status) db).db = db ∧
    (UpdateOrderStatus rabbitMQ execFails now clock (some uid) idParam (some status)
      db).published = [] ∧
    (∀ p ∈ (UpdateOrderStatus rabbitMQ execFails now clock (some uid) idParam (some status)
      db).responses, ¬ (200 ≤ p.1 ∧ p.1 < 300)) ∧
    (execFails = false →
      (UpdateOrderStatus rabbitMQ execFails now clock (some uid) idParam (some status)
        db).responses = [(404, .error "Order not found or not authorized")]) := by
  unfold UpdateOrderStatus
  simp only [hid, bindStatus_valid status hs]
  cases execFails with
  | true => simp
  | false =>
    simp [execUpdateStatus_no_row db status orderID uid now hno,
      rowsAffected_no_row db orderID uid hno]

/-- C8 at a concrete store: user 8 asks to cancel order 1, which user 7 owns. -/
theorem UpdateOrderStatus_not_owner_witness :
    Atoi (lit "1") = some 1 ∧ "cancelled" ∈ validStatuses ∧
    (∀ r ∈ sampleDB.orders, r.id = 1 → r.user_id ≠ 8) ∧
    (UpdateOrderStatus (some defaultConfig) false 99 tick (some 8) (lit "1")
      (some "cancelled") sampleDB).db = sampleDB ∧
    (UpdateOrderStatus (some defaultConfig) false 99 tick (some 8) (lit "1")
      (some "cancelled") sampleDB).responses =
        [(404, .error "Order not found or not authorized")] :=
  have hno : ∀ r ∈ sampleDB.orders, r.id = 1 → r.user_id ≠ 8 := by
    intro r hr
    simp only [sampleDB, List.mem_cons, List.mem_singleton, List.not_mem_nil, or_false] at hr
    rcases hr with h | h <;> subst h <;> decide
  ⟨by decide, by decide, hno,
   (UpdateOrderStatus_not_owner (some defaultConfig) false 99 tick 8 (lit "1") 1 "cancelled"
     sampleDB (by decide) (by decide) hno).1,
   (UpdateOrderStatus_not_owner (some defaultConfig) false 99 tick 8 (lit "1") 1 "cancelled"
     sampleDB (by decide) (by decide) hno).2.2.2 rfl⟩

/-- An update that selects a row reports at least one row affected. -/
theorem rowsAffected_owned (db : DB) (orderID uid : Int)
    (hown : ∃ r ∈ db.orders, r.id = orderID ∧ r.user_id = uid) :
    rowsAffected db orderID uid ≠ 0 := by
  obtain ⟨r, hr, h⟩ := hown
  unfold rowsAffected
  rw [Ne, List.length_eq_zero, List.filter_eq_nil_iff]
  intro hall
  exact hall r hr (by simpa using h)

/-- The owner of the first row with an identifier owns a row with that identifier. -/
theorem selectOwner_owned (db : DB) (orderID uid : Int) (h : selectOwner db orderID = some uid) :
    ∃ r ∈ db.orders, r.id = orderID ∧ r.user_id = uid := by
  unfold selectOwner at h
  cases hf : db.orders.find? (fun r => r.id = orderID) with
  | none => simp [hf] at h
  | some r =>
    simp [hf] at h
    exact ⟨r, List.mem_of_find?_eq_some hf, by simpa using List.find?_some hf, h⟩

/-- A valid status update by a user who owns an order with the requested
identifier, executed by the database: the update is applied, the answer is 200
and one `status_updated` event is published. -/
theorem UpdateOrderStatus_applies (rabbitMQ : Option Config) (now : Nat) (clock : Nat → Nat)
    (uid : Int) (idParam : GoString) (orderID : Int) (status : String) (db : DB)
    (hid : Atoi idParam = some orderID) (hs : status ∈ validStatuses)
    (hown : ∃ r ∈ db.orders, r.id = orderID ∧ r.user_id = uid) :
    UpdateOrderStatus rabbitMQ false now clock (some uid) idParam (some status) db =
      { db := execUpdateStatus db status orderID uid now
        responses := [(200, .statusUpdated orderID), (200, .statusUpdated orderID)]
        published :=
          match rabbitMQ with
          | none => []
          | some cfg =>
            [PublishOrderEvent cfg (clock 0) orderID (statusPriority status)
               (lit "status_updated")] } := by
  unfold UpdateOrderStatus
  simp [hid, bindStatus_valid status hs, rowsAffected_owned db orderID uid hown]

/-- The owner-scoped update sets the status that `selectStatus` reads, when the
order that `selectStatus` reads is owned by the user. -/
theorem selectStatus_execUpdateStatus (db : DB) (status : String) (orderID uid : Int) (now : Nat)
    (hown : selectOwner db orderID = some uid) :
    selectStatus (execUpdateStatus db status orderID uid now) orderID = some status := by
  obtain ⟨orders, items⟩ := db
  unfold selectStatus execUpdateStatus
  unfold selectOwner at hown
  simp only at hown ⊢
  induction orders with
  | nil => simp at hown
  | cons r rest ih =>
    by_cases hr : r.id = orderID
    · simp only [List.find?_cons, hr, decide_True, Option.map_some', Option.some.injEq] at hown
      simp [hr, hown]
    · simp only [List.find?_cons, hr, decide_False] at hown
      simp only [List.map_cons, hr, false_and, if_false, List.find?_cons, decide_False]
      exact ih hown

/-! ## Theorems: routing metadata -/

/-- Either priority that `CreateOrder` can choose lies between 0 and the
configured `MaxPriority`, which is 10, and the conversion to `uint8` leaves it
as it is. -/
theorem createdPriority_fits (environ : String → String) (total : ℚ) :
    (createdPriority total = 5 ∨ createdPriority total = 9) ∧
    0 ≤ createdPriority total ∧ createdPriority total ≤ (LoadConfig environ).MaxPriority ∧
    (LoadConfig environ).MaxPriority = 10 ∧
    (toUint8 (createdPriority total) : Int) = createdPriority total := by
  unfold createdPriority
  split
  · exact ⟨Or.inr rfl, by decide, by simp [LoadConfig], rfl, by decide⟩
  · exact ⟨Or.inl rfl, by decide, by simp [LoadConfig], rfl, by decide⟩

/-- The priority that `UpdateOrderStatus` chooses is 8 for the new status
`cancelled` and 5 otherwise; it lies between 0 and the configured `MaxPriority`
and the conversion to `uint8` leaves it as it is. -/
theorem statusPriority_fits (environ : String → String) (status : String) :
    statusPriority status = (if status = "cancelled" then 8 else 5) ∧
    0 ≤ statusPriority status ∧ statusPriority status ≤ (LoadConfig environ).MaxPriority ∧
    (toUint8 (statusPriority status) : Int) = statusPriority status := by
  unfold statusPriority
  split
  · exact ⟨rfl, by decide, by simp [LoadConfig], by decide⟩
  · exact ⟨rfl, by decide, by simp [LoadConfig], by decide⟩

/-- The delay that `CreateOrder` asks for, `15 * time.Minute`, is 900000 milliseconds. -/
theorem payment_check_delay : Milliseconds (15 * Minute) = 900000 := by decide

/-- What passes the binding of the status request is the status of the body. -/
theorem bindStatus_ok (parsed : Option String) (status : String)
    (h : bindStatus parsed = .ok status) : parsed = some status := by
  unfold bindStatus at h
  cases parsed with
  | none => simp at h
  | some s =>
    simp only at h
    split at h
    · simp at h
    · split at h
      · simp only [Except.ok.injEq] at h
        rw [h]
      · simp at h

/-- Every message that `UpdateOrderStatus` publishes, on any input, is a
`status_updated` event on the order exchange with priority 8 when the new
status is `cancelled` and 5 otherwise, and without headers. -/
theorem UpdateOrderStatus_published (cfg : Config) (execFails : Bool) (now : Nat)
    (clock : Nat → Nat) (userID : Option Int) (idParam : GoString) (parsed : Option String)
    (db : DB) (p : Publish)
    (hp : p ∈ (UpdateOrderStatus (some cfg) execFails now clock userID idParam parsed
      db).published) :
    ∃ orderID status, Atoi idParam = some orderID ∧ parsed = some status ∧
      p.exchange = cfg.OrderExchange ∧ p.key = "" ∧
      p.msg.Body = eventBody orderID (lit "status_updated") ∧
      p.msg.Priority = (if status = "cancelled" then 8 else 5) ∧
      p.msg.Headers = [] := by
  unfold UpdateOrderStatus at hp
  cases userID with
  | none => simp at hp
  | some uid =>
    cases hA : Atoi idParam with
    | none => simp [hA] at hp
    | some orderID =>
      cases hb : bindStatus parsed with
      | error e => simp [hA, hb] at hp
      | ok status =>
        cases execFails with
        | true => simp [hA, hb] at hp
        | false =>
          by_cases hr : rowsAffected db orderID uid = 0
          · simp [hA, hb, hr] at hp
          · simp only [hA, hb, hr, Bool.false_eq_true, if_false, List.mem_singleton] at hp
            subst hp
            refine ⟨orderID, status, rfl, bindStatus_ok parsed status hb, rfl, rfl, rfl, ?_, rfl⟩
            simp only [PublishOrderEvent, statusPriority]
            split <;> rfl

/-- Whatever the input, `CreateOrder` publishes nothing or publishes the
`created` event, with the priority decided on the value that the accumulation
loop leaves in `order.Total`, followed by the `payment_check` event with the
header `x-delay` of 900000 milliseconds. -/
theorem CreateOrder_published (cfg : Config) (f : DbFaults) (clock : Nat → Nat)
    (userID : Option Int) (parsed : Option Order) (db : DB) :
    (CreateOrder (some cfg) f clock userID parsed db).published = [] ∨
    ∃ order, parsed = some order ∧
      (CreateOrder (some cfg) f clock userID parsed db).published =
        [PublishOrderEvent cfg (clock 2) f.assignedID
           (createdPriority (addItemTotals order.Total order.Items)) (lit "created"),
         PublishDelayedEvent cfg (clock 3) f.assignedID (15 * Minute) (lit "payment_check")] ∧
      (PublishDelayedEvent cfg (clock 3) f.assignedID (15 * Minute)
        (lit "payment_check")).msg.Headers = [("x-delay", .int 900000)] := by
  cases userID with
  | none => left; simp [CreateOrder]
  | some uid =>
    cases parsed with
    | none => left; simp [CreateOrder, bindOrder]
    | some order =>
      by_cases ht : order.Total = 0
      · left; simp [CreateOrder, bindOrder, ht]
      by_cases hl : order.Items.length = 0
      · left; simp [CreateOrder, bindOrder, ht, hl]
      by_cases hb : f.beginFails = true
      · left; simp [CreateOrder, bindOrder, ht, hl, hb]
      by_cases h1 : f.insertOrderFails = true
      · left
        simpa [CreateOrder, bindOrder, ht, hl, hb, h1] using (rollbackWith_keeps f db _).2
      by_cases h2 : f.lastInsertIdFails = true
      · left
        simpa [CreateOrder, bindOrder, ht, hl, hb, h1, h2] using (rollbackWith_keeps f db _).2
      cases h3 : insertItems f f.assignedID 0 order.Items
          (insertOrder db f.assignedID
            { order with UserID := uid, Status := "pending", CreatedAt := clock 0,
                         UpdatedAt := clock 1,
                         Total := addItemTotals order.Total order.Items }) with
      | none =>
        left
        simpa [CreateOrder, bindOrder, ht, hl, hb, h1, h2, h3] using
          (rollbackWith_keeps f db _).2
      | some tx =>
        by_cases h4 : f.commitFails = true
        · left; simp [CreateOrder, bindOrder, ht, hl, hb, h1, h2, h3, h4]
        · right
          refine ⟨order, rfl, ?_, ?_⟩
          · simp [CreateOrder, bindOrder, ht, hl, hb, h1, h2, h3, h4]
          · simp [PublishDelayedEvent, payment_check_delay]

/-- C9 (the code departs from the claim): a committed request by user 7 with
one line item, quantity 1 at 600.00, and the value 600 in its own `total`
field. The order is worth 600, which is at most 1000, yet the row is written
with total 1200 and the `created` event is published with priority 9; the
`payment_check` event carries the header `x-delay` of 900000 milliseconds. -/
theorem created_priority_counts_request_total :
    lineItemSum order600.Items = 600 ∧
    (CreateOrder (some defaultConfig) noFaults tick (some 7) (some order600) emptyDB).db.orders =
      [{ id := 12345, user_id := 7, total := 1200, status := "pending",
         created_at := 0, updated_at := 1 }] ∧
    (CreateOrder (some defaultConfig) noFaults tick (some 7) (some order600)
      emptyDB).published.map
        (fun p => (p.exchange, p.key, p.msg.Body, p.msg.Priority, p.msg.Headers)) =
      [("orders_exchange", "", eventBody 12345 (lit "created"), 9, []),
       ("delay_exchange", "", eventBody 12345 (lit "payment_check"), 0,
          [("x-delay", .int 900000)])] := by
  have h := CreateOrder_commits (some defaultConfig) noFaults tick 7 order600 emptyDB
    (by simp [order600]) (by simp [order600]) rfl rfl rfl (fun _ => rfl) rfl
  have hs : lineItemSum order600.Items = 600 := by
    simp [lineItemSum, order600]
  have ht : order600.Total + 600 = 1200 := by
    simp [order600]; norm_num
  have hp : createdPriority 1200 = 9 := by
    simp [createdPriority]; norm_num
  rw [h, hs, ht, hp]
  refine ⟨rfl, rfl, ?_⟩
  simp only [List.map_cons, List.map_nil, PublishOrderEvent, PublishDelayedEvent,
    payment_check_delay]
  rfl

/-! ## Theorems: final statuses -/

/-- The payment check returns the store as it was whenever the order it names
is not `pending`, whatever the driver does. -/
theorem handlePaymentCheck_not_pending (env : ConsumerEnv) (db : DB) (orderID : Int)
    (h : selectStatus db orderID ≠ some "pending") :
    (handlePaymentCheck env db orderID).1 = db := by
  unfold handlePaymentCheck scanStatus
  cases env.queryFails with
  | true => simp
  | false =>
    simp only [Bool.false_eq_true, if_false]
    cases hs : selectStatus db orderID with
    | none => simp
    | some status =>
      have hp : status ≠ "pending" := fun e => h (by rw [hs, e])
      simp [hp]

/-- C10 as amended: for an order whose status is `cancelled` or `delivered`,
`handlePaymentCheck` returns the store as it was, and a validated status update
by the owner is applied whatever the current status: the order then has the
requested status and the answer is 200. -/
theorem final_status_policy (env : ConsumerEnv) (rabbitMQ : Option Config) (now : Nat)
    (clock : Nat → Nat) (uid : Int) (idParam : GoString) (orderID : Int)
    (current status : String) (db : DB)
    (hcur : selectStatus db orderID = some current)
    (hfinal : current = "cancelled" ∨ current = "delivered")
    (hown : selectOwner db orderID = some uid)
    (hid : Atoi idParam = some orderID) (hs : status ∈ validStatuses) :
    (handlePaymentCheck env db orderID).1 = db ∧
    selectStatus (UpdateOrderStatus rabbitMQ false now clock (some uid) idParam (some status)
      db).db orderID = some status ∧
    (UpdateOrderStatus rabbitMQ false now clock (some uid) idParam (some status)
      db).responses = [(200, .statusUpdated orderID), (200, .statusUpdated orderID)] := by
  have hnp : selectStatus db orderID ≠ some "pending" := by
    rw [hcur]
    rcases hfinal with h | h <;> subst h <;> decide
  rw [UpdateOrderStatus_applies rabbitMQ now clock uid idParam orderID status db hid hs
    (selectOwner_owned db orderID uid hown)]
  exact ⟨handlePaymentCheck_not_pending env db orderID hnp,
    selectStatus_execUpdateStatus db status orderID uid now hown, rfl⟩

/-- C10 as amended, at a concrete store: the payment check leaves the cancelled
order 3 alone, and the owner's request moves the delivered order 4 to `shipped`. -/
theorem final_status_policy_witness :
    selectStatus terminalDB 3 = some "cancelled" ∧ selectOwner terminalDB 3 = some 7 ∧
    selectStatus terminalDB 4 = some "delivered" ∧ selectOwner terminalDB 4 = some 7 ∧
    (handlePaymentCheck healthyEnv terminalDB 3).1 = terminalDB ∧
    selectStatus (UpdateOrderStatus none false 99 tick (some 7) (lit "4") (some "shipped")
      terminalDB).db 4 = some "shipped" :=
  ⟨by decide, by decide, by decide, by decide,
   (final_status_policy healthyEnv none 99 tick 7 (lit "3") 3 "cancelled" "cancelled" terminalDB
     (by decide) (Or.inl rfl) (by decide) (by decide) (by decide)).1,
   (final_status_policy healthyEnv none 99 tick 7 (lit "4") 4 "delivered" "shipped" terminalDB
     (by decide) (Or.inr rfl) (by decide) (by decide) (by decide)).2.1⟩

/-- C10 as stated fails: the owner of the cancelled order 3 asks for the status
`pending`; the request passes validation, is answered 200, and the order is
`pending` afterwards. -/
theorem cancelled_order_reopened :
    selectStatus terminalDB 3 = some "cancelled" ∧
    selectOwner terminalDB 3 = some 7 ∧
    "pending" ∈ validStatuses ∧
    (UpdateOrderStatus none false 99 tick (some 7) (lit "3") (some "pending")
      terminalDB).responses = [(200, .statusUpdated 3), (200, .statusUpdated 3)] ∧
    selectStatus (UpdateOrderStatus none false 99 tick (some 7) (lit "3") (some "pending")
      terminalDB).db 3 = some "pending" := by
  decide

/-! ## Theorems: delivery of the delayed payment check -/

/-- Under the topology that `SetupQueues` declares on a broker without
declarations, a message published to the delay exchange reaches no queue
whenever the delay exchange is neither the order exchange nor the dead-letter
exchange: `SetupQueues` binds no queue to the delay exchange. -/
theorem delay_exchange_reaches_no_queue (cfg : Config) (f : SetupFaults) (b : Broker)
    (key : String) (hsetup : SetupQueues cfg f Broker.empty = .ok b)
    (hord : cfg.OrderExchange ≠ cfg.DelayExchange)
    (hdlx : cfg.DeadLetterQueue ++ "_exchange" ≠ cfg.DelayExchange) :
    route b cfg.DelayExchange key = [] := by
  obtain ⟨f1, f2, f3, f4, f5, f6⟩ := f
  cases f1 <;> cases f2 <;> cases f3 <;> cases f5 <;> cases f6 <;> cases f4 <;>
    simp only [SetupQueues, Bool.false_eq_true, if_true, if_false, Except.ok.injEq,
      reduceCtorEq] at hsetup <;>
    subst hsetup <;>
    simp [route, QueueBind, QueueDeclare, ExchangeDeclare, Broker.empty, hord, hdlx]

/-- C11 (the code departs from the claim): under the default configuration,
`SetupQueues` succeeds on a broker without declarations and declares two
bindings, none of them to `delay_exchange`; the `payment_check` event that
`PublishDelayedEvent` publishes to `delay_exchange` with the empty routing key
reaches no queue, so it does not reach `orders_queue`. -/
theorem payment_check_reaches_no_queue :
    ∃ b, SetupQueues defaultConfig SetupFaults.none Broker.empty = .ok b ∧
      (PublishDelayedEvent defaultConfig 0 12345 (15 * Minute) (lit "payment_check")).exchange =
        "delay_exchange" ∧
      (PublishDelayedEvent defaultConfig 0 12345 (15 * Minute) (lit "payment_check")).key = "" ∧
      b.bindings.map (fun bd => bd.exchange) =
        ["dead_letter_queue_exchange", "orders_exchange"] ∧
      delivered b (PublishDelayedEvent defaultConfig 0 12345 (15 * Minute)
        (lit "payment_check")) = [] ∧
      "orders_queue" ∉ delivered b (PublishDelayedEvent defaultConfig 0 12345 (15 * Minute)
        (lit "payment_check")) ∧
      delivered b (PublishOrderEvent defaultConfig 0 12345 5 (lit "created")) =
        ["orders_queue"] :=
  ⟨_, rfl, by decide, by decide, by decide, by decide, by decide, by decide⟩

/-! ## Theorems: consumer, acknowledged messages -/

/-- The decode step succeeds on a body with two fields or more whose first
field `strconv.Atoi` parses. -/
theorem decodeStep_some_of (body : GoString) (orderID : Int)
    (hlen : 2 ≤ (Split body pipe).length)
    (hid : Atoi ((Split body pipe).getD 0 []) = some orderID) :
    decodeStep body = some (orderID, (Split body pipe).getD 1 []) := by
  unfold decodeStep
  have hl : ¬ (Split body pipe).length < 2 := by omega
  simp only [hl, if_false]
  rw [hid]

/-- The handler `handleStatusUpdated` makes no acknowledgement and returns the
store as it was. -/
theorem handleStatusUpdated_quiet (env : ConsumerEnv) (db : DB) (orderID : Int) :
    acknowledgements (handleStatusUpdated env db orderID).2 = [] ∧
    (handleStatusUpdated env db orderID).1 = db := by
  unfold handleStatusUpdated
  cases scanStatus env db orderID <;> exact ⟨rfl, rfl⟩

/-- The handler `handlePaymentCheck` makes no acknowledgement, and returns the
store as it was when the status read or the cancelling update fails. -/
theorem handlePaymentCheck_quiet (env : ConsumerEnv) (db : DB) (orderID : Int) :
    acknowledgements (handlePaymentCheck env db orderID).2 = [] ∧
    (env.queryFails = true ∨ env.execFails = true →
      (handlePaymentCheck env db orderID).1 = db) := by
  unfold handlePaymentCheck scanStatus
  cases hq : env.queryFails with
  | true => exact ⟨rfl, fun _ => rfl⟩
  | false =>
    simp only [Bool.false_eq_true, if_false, false_or]
    cases selectStatus db orderID with
    | none => exact ⟨rfl, fun _ => rfl⟩
    | some status =>
      by_cases hp : status = "pending"
      · cases he : env.execFails with
        | true => simp only [hp, if_true]; exact ⟨rfl, by simp⟩
        | false =>
          simp only [hp, if_true, Bool.false_eq_true, if_false]
          exact ⟨rfl, fun h => absurd h (by simp)⟩
      · simp only [hp, if_false]
        exact ⟨rfl, by simp⟩

/-- C12: for a body with two `|`-separated fields or more whose first field
`strconv.Atoi` parses, `processOrderMessage` issues one `Ack(false)` and no
`Nack`, as its last action; when the event kind is none of `created`,
`status_updated`, `payment_check`, the acknowledgement is all it does and the
store is the one it started from; and when the status read or the cancelling
update fails, the store is the one it started from as well. -/
theorem processOrderMessage_acks_decodable (env : ConsumerEnv) (db : DB) (body : GoString)
    (orderID : Int) (hlen : 2 ≤ (Split body pipe).length)
    (hid : Atoi ((Split body pipe).getD 0 []) = some orderID) :
    acknowledgements (processOrderMessage env db body).2 = [Effect.Ack false] ∧
    (processOrderMessage env db body).2.getLast? = some (Effect.Ack false) ∧
    ((Split body pipe).getD 1 [] ≠ lit "created" →
      (Split body pipe).getD 1 [] ≠ lit "status_updated" →
      (Split body pipe).getD 1 [] ≠ lit "payment_check" →
      processOrderMessage env db body = (db, [Effect.Ack false])) ∧
    (env.queryFails = true ∨ env.execFails = true →
      (processOrderMessage env db body).1 = db) := by
  rw [processOrderMessage_eq, decodeStep_some_of body orderID hlen hid]
  simp only
  have hack : ∀ t : List Effect, acknowledgements t = [] →
      acknowledgements (t ++ [Effect.Ack false]) = [Effect.Ack false] := by
    intro t ht
    unfold acknowledgements at ht ⊢
    rw [List.filter_append, ht]
    rfl
  by_cases h1 : (Split body pipe).getD 1 [] = lit "created"
  · simp only [h1, if_true]
    exact ⟨rfl, rfl, fun h => absurd rfl h, by simp [handleOrderCreated]⟩
  · simp only [h1, if_false]
    by_cases h2 : (Split body pipe).getD 1 [] = lit "status_updated"
    · simp only [h2, if_true]
      have hq := handleStatusUpdated_quiet env db orderID
      exact ⟨hack _ hq.1, List.getLast?_concat _, fun _ h => absurd rfl h, fun _ => hq.2⟩
    · simp only [h2, if_false]
      by_cases h3 : (Split body pipe).getD 1 [] = lit "payment_check"
      · simp only [h3, if_true]
        have hq := handlePaymentCheck_quiet env db orderID
        exact ⟨hack _ hq.1, List.getLast?_concat _, fun _ _ h => absurd rfl h, hq.2⟩
      · simp only [h3, if_false]
        exact ⟨rfl, rfl, by simp, by simp⟩

/-- C12 at concrete bodies: `1|payment_check` for the pending order 1 while the
cancelling update fails is acknowledged once and the store stays as it was;
`7|refunded`, of an unknown kind, is acknowledged and nothing else happens. -/
theorem processOrderMessage_acks_decodable_witness :
    2 ≤ (Split (lit "1|payment_check") pipe).length ∧
    Atoi ((Split (lit "1|payment_check") pipe).getD 0 []) = some 1 ∧
    updateFailsEnv.execFails = true ∧
    (processOrderMessage updateFailsEnv sampleDB (lit "1|payment_check")).2 =
      [Effect.handlePaymentCheck 1, Effect.QueryRow 1, Effect.Exec 1, Effect.Ack false] ∧
    acknowledgements (processOrderMessage updateFailsEnv sampleDB (lit "1|payment_check")).2 =
      [Effect.Ack false] ∧
    (processOrderMessage updateFailsEnv sampleDB (lit "1|payment_check")).1 = sampleDB ∧
    (processOrderMessage readFailsEnv sampleDB (lit "1|payment_check")).1 = sampleDB ∧
    processOrderMessage healthyEnv sampleDB (lit "7|refunded") =
      (sampleDB, [Effect.Ack false]) :=
  ⟨by decide, by decide, rfl, by decide,
   (processOrderMessage_acks_decodable updateFailsEnv sampleDB (lit "1|payment_check") 1
     (by decide) (by decide)).1,
   (processOrderMessage_acks_decodable updateFailsEnv sampleDB (lit "1|payment_check") 1
     (by decide) (by decide)).2.2.2 (Or.inr rfl),
   (processOrderMessage_acks_decodable readFailsEnv sampleDB (lit "1|payment_check") 1
     (by decide) (by decide)).2.2.2 (Or.inl rfl),
   (processOrderMessage_acks_decodable healthyEnv sampleDB (lit "7|refunded") 7
     (by decide) (by decide)).2.2.1 (by decide) (by decide) (by decide)⟩

end OrderService
